import Mathlib

/-!
Shallow embedding of the Windows platform window layer of
src/plugins/platforms/windows/qwindowswindow.cpp (window creation planning,
window state machine, geometry/event reconciliation and per-window property
operations), together with theorems settling the frozen claims.

Modelling conventions:
* Machine integers (DWORD style bits, Qt window flags) are Nat, masked with
  0xFFFFFFFF where a bitwise complement is taken.
* Coordinates are Int (Windows uses signed 32-bit coordinates; no arithmetic
  here overflows, so no wraparound is modelled).
* Native calls (SetWindowLongPtr, SetWindowPos, ShowWindow, ...) and toolkit
  notifications (expose, geometry change) are recorded in an event trace.
  The effect of each native call on the OS-side window data (style word,
  frame rectangle, placement) is modelled explicitly in applyShowWindow and
  applySetWindowPos; OS behaviour that the code under verification does not
  depend on (exact maximized bounds, AdjustWindowRectEx results, screen
  bounds) is supplied by an OsEnv record of oracles.
* The subsystem is single threaded; reentrant message dispatch inside
  SetWindowPos is not modelled except in setGeometry_sys, whose caller
  observes the reconciled geometry (the code checks m_data.geometry after
  the native call).
-/

namespace QtWin

/-- Device-coordinate point (QPoint). -/
structure QPoint where
  x : Int
  y : Int
deriving Repr, DecidableEq

/-- Size in device pixels (QSize). -/
structure QSize where
  width : Int
  height : Int
deriving Repr, DecidableEq

/-- Rectangle stored as origin plus size (QRect). A default-constructed QRect
has width and height 0 and is invalid. -/
structure QRect where
  x : Int
  y : Int
  width : Int
  height : Int
deriving Repr, DecidableEq

/-- QRect::isValid: the rectangle has at least one pixel in both dimensions. -/
def QRect.isValid (r : QRect) : Bool :=
  decide (0 < r.width) && decide (0 < r.height)

/-- Default-constructed (invalid, null) QRect. -/
def nullRect : QRect := ⟨0, 0, 0, 0⟩

def QRect.size (r : QRect) : QSize := ⟨r.width, r.height⟩

def QRect.topLeft (r : QRect) : QPoint := ⟨r.x, r.y⟩

/-- Margins around a rectangle (QMargins). -/
structure QMargins where
  left : Int
  top : Int
  right : Int
  bottom : Int
deriving Repr, DecidableEq

/-- Componentwise sum of margins (operator+ of QMargins). -/
def QMargins.add (a b : QMargins) : QMargins :=
  ⟨a.left + b.left, a.top + b.top, a.right + b.right, a.bottom + b.bottom⟩

/-- QMargins::isNull. -/
def QMargins.isNull (m : QMargins) : Bool :=
  decide (m.left = 0) && decide (m.top = 0) && decide (m.right = 0) && decide (m.bottom = 0)

/-- QRect::marginsRemoved: shrink the rectangle by the margins. -/
def QRect.marginsRemoved (r : QRect) (m : QMargins) : QRect :=
  ⟨r.x + m.left, r.y + m.top,
   r.width - m.left - m.right, r.height - m.top - m.bottom⟩

/-- QRect::marginsAdded (operator+ of QRect and QMargins): grow by the margins. -/
def QRect.marginsAdded (r : QRect) (m : QMargins) : QRect :=
  ⟨r.x - m.left, r.y - m.top,
   r.width + m.left + m.right, r.height + m.top + m.bottom⟩

/-! Native style bits (winuser.h). -/

def WS_OVERLAPPED : Nat := 0x00000000
def WS_POPUP : Nat := 0x80000000
def WS_CHILD : Nat := 0x40000000
def WS_MINIMIZE : Nat := 0x20000000
def WS_VISIBLE : Nat := 0x10000000
def WS_DISABLED : Nat := 0x08000000
def WS_MAXIMIZE : Nat := 0x01000000
def WS_CLIPSIBLINGS : Nat := 0x04000000
def WS_CLIPCHILDREN : Nat := 0x02000000
def WS_CAPTION : Nat := 0x00C00000
def WS_BORDER : Nat := 0x00800000
def WS_DLGFRAME : Nat := 0x00400000
def WS_SYSMENU : Nat := 0x00080000
def WS_THICKFRAME : Nat := 0x00040000
def WS_MINIMIZEBOX : Nat := 0x00020000
def WS_MAXIMIZEBOX : Nat := 0x00010000

def WS_EX_DLGMODALFRAME : Nat := 0x00000001
def WS_EX_TOOLWINDOW : Nat := 0x00000080
def WS_EX_CONTEXTHELP : Nat := 0x00000400
def WS_EX_LAYERED : Nat := 0x00080000
def WS_EX_TRANSPARENT : Nat := 0x00000020

/-- Bitwise complement within a 32-bit word (DWORD ~x). -/
def wnot (x : Nat) : Nat := 0xFFFFFFFF ^^^ (x &&& 0xFFFFFFFF)

/-! ShowWindow commands. -/

def SW_HIDE : Nat := 0
def SW_SHOWNORMAL : Nat := 1
def SW_SHOWMINIMIZED : Nat := 2
def SW_SHOWMAXIMIZED : Nat := 3
def SW_MAXIMIZE : Nat := 3
def SW_SHOWNOACTIVATE : Nat := 4
def SW_SHOW : Nat := 5
def SW_MINIMIZE : Nat := 6
def SW_SHOWMINNOACTIVE : Nat := 7
def SW_SHOWNA : Nat := 8
def SW_RESTORE : Nat := 9

/-! SetWindowPos flags and special hwndAfter values. -/

def SWP_NOSIZE : Nat := 0x0001
def SWP_NOMOVE : Nat := 0x0002
def SWP_NOZORDER : Nat := 0x0004
def SWP_NOACTIVATE : Nat := 0x0010
def SWP_FRAMECHANGED : Nat := 0x0020
def SWP_SHOWWINDOW : Nat := 0x0040
def SWP_HIDEWINDOW : Nat := 0x0080
def SWP_NOOWNERZORDER : Nat := 0x0200
def HWND_TOP : Int := 0
def HWND_TOPMOST : Int := -1
def HWND_BOTTOM : Int := 1

/-! Qt window types (values of Qt::WindowType) and hint flags. -/

def Qt_Widget : Nat := 0x00000000
def Qt_Window : Nat := 0x00000001
def Qt_Dialog : Nat := 0x00000002 ||| Qt_Window
def Qt_Sheet : Nat := 0x00000004 ||| Qt_Window
def Qt_Drawer : Nat := Qt_Sheet ||| Qt_Dialog
def Qt_Popup : Nat := 0x00000008 ||| Qt_Window
def Qt_Tool : Nat := Qt_Popup ||| Qt_Dialog
def Qt_ToolTip : Nat := Qt_Popup ||| Qt_Sheet
def Qt_SplashScreen : Nat := Qt_ToolTip ||| Qt_Dialog
def WindowType_Mask : Nat := 0x000000ff

def MSWindowsFixedSizeDialogHint : Nat := 0x00000100
def FramelessWindowHint : Nat := 0x00000800
def WindowTitleHint : Nat := 0x00001000
def WindowSystemMenuHint : Nat := 0x00002000
def WindowMinimizeButtonHint : Nat := 0x00004000
def WindowMaximizeButtonHint : Nat := 0x00008000
def WindowMinMaxButtonsHint : Nat := WindowMinimizeButtonHint ||| WindowMaximizeButtonHint
def WindowContextHelpButtonHint : Nat := 0x00010000
def WindowStaysOnTopHint : Nat := 0x00040000
def WindowTransparentForInput : Nat := 0x00080000
def CustomizeWindowHint : Nat := 0x02000000
def WindowStaysOnBottomHint : Nat := 0x04000000
def WindowCloseButtonHint : Nat := 0x08000000
def WindowFullscreenButtonHint : Nat := 0x80000000

/-- Toolkit window states (Qt::WindowState; a window holds a single state). -/
inductive WindowState where
  | noState
  | minimized
  | maximized
  | fullScreen
deriving Repr, DecidableEq

/-- Window visibilities reported by windowVisibility_sys (QWindow::Visibility,
restricted to the values that function produces). -/
inductive Visibility where
  | hidden
  | minimized
  | maximized
  | windowed
deriving Repr, DecidableEq

/-- Trace events: native window calls issued by the code, plus the toolkit
notifications it pushes through QWindowSystemInterface and its qWarning
diagnostics. -/
inductive NativeEvent where
  /-- SetWindowLongPtr(hwnd, GWL_STYLE, s) issued through setStyle. -/
  | setWindowLongStyle (s : Nat)
  /-- SetWindowPos(hwnd, hwndAfter, x, y, cx, cy, flags). -/
  | setWindowPosCall (hwndAfter : Int) (x y cx cy : Int) (flags : Nat)
  /-- MoveWindow(hwnd, frame), from setGeometry_sys. -/
  | moveWindowCall (frame : QRect)
  /-- SetWindowPlacement(hwnd, wp), from setGeometry_sys. -/
  | setWindowPlacementCall (normalPosition : QRect) (showCmd : Nat)
  /-- ShowWindow(hwnd, cmd). -/
  | showWindowCall (cmd : Nat)
  /-- SetWindowLongPtr(hwnd, GWL_HWNDPARENT, h), from updateTransientParent. -/
  | transientParentCall (h : Nat)
  /-- SetCapture(hwnd). -/
  | setCaptureCall
  /-- ReleaseCapture(). -/
  | releaseCaptureCall
  /-- SetForegroundWindow(hwnd). -/
  | setForegroundWindowCall
  /-- SendMessage(hwnd, WM_SETICON, ...) pair plus icon handle management. -/
  | iconMessages
  /-- setWindowOpacity: SetWindowLong/SetLayeredWindowAttributes/RedrawWindow. -/
  | layeredUpdateCall
  /-- EnableMenuItem(systemMenu, SC_CLOSE, enabled or grayed). -/
  | enableCloseItem (enabled : Bool)
  /-- qWarning diagnostic (not a native window call). -/
  | warningMsg
  /-- QWindowSystemInterface::handleExposeEvent; none is the empty region
  (an invalid rectangle also yields an empty region). -/
  | exposeEvent (region : Option QRect)
  /-- QWindowSystemInterface::handleGeometryChange. -/
  | geometryChangeEvent (r : QRect)
  /-- QWindowSystemInterface::handleWindowScreenChanged. -/
  | screenChangeEvent
deriving Repr, DecidableEq

/-- Events that are native window calls (as opposed to logging or toolkit
event queueing). -/
def NativeEvent.isNativeCall : NativeEvent → Bool
  | .warningMsg => false
  | .exposeEvent _ => false
  | .geometryChangeEvent _ => false
  | .screenChangeEvent => false
  | _ => true

/-- The synthetic expose events of a trace, keeping their regions. -/
def exposeRegions (t : List NativeEvent) : List (Option QRect) :=
  t.filterMap fun e => match e with
    | .exposeEvent r => some r
    | _ => none

/-- Number of qWarning diagnostics in a trace. -/
def warningCount (t : List NativeEvent) : Nat :=
  (t.filter fun e => e == .warningMsg).length

/-- Per-window state: the QWindowsWindow object fields used by the verified
operations together with the OS-side data of its native window (style word,
frame rectangle, WINDOWPLACEMENT essentials). hwnd is abstracted to a Bool
recording whether a native handle exists. The boolean QWindowsWindow::Flags
bits involved are split into named fields. -/
structure QWindowsWindow where
  /-- m_data.hwnd is non-null. -/
  hwnd : Bool
  /-- OS window style word (GWL_STYLE); bit 28 is WS_VISIBLE, which
  IsWindowVisible reads for a top-level window. -/
  style : Nat
  /-- OS extended style word (GWL_EXSTYLE). -/
  exStyle : Nat
  /-- OS frame rectangle in screen coordinates (GetWindowRect). -/
  frameGeometry : QRect
  /-- WINDOWPLACEMENT rcNormalPosition: the OS restore-to frame rectangle. -/
  normalPosRect : QRect
  /-- OS placement reports SW_SHOWMAXIMIZED. -/
  osMaximized : Bool
  /-- OS placement reports the window iconic. -/
  osMinimized : Bool
  /-- m_windowState. -/
  windowState : WindowState
  /-- m_savedStyle (0 when no record is saved). -/
  savedStyle : Nat
  /-- m_savedFrameGeometry (invalid when no record is saved). -/
  savedFrameGeometry : QRect
  /-- m_data.geometry: the toolkit client-area geometry. -/
  geometry : QRect
  /-- QPlatformWindow base-class geometry (QPlatformWindow::setGeometry). -/
  qplatformGeometry : QRect
  /-- m_data.flags: the Qt window flags. -/
  flags : Nat
  /-- m_data.frame: cached style-derived frame margins. -/
  frame : QMargins
  /-- m_data.customMargins. -/
  customMargins : QMargins
  /-- FrameDirty flag: the cached frame margins need recomputation. -/
  frameDirty : Bool
  /-- Exposed flag. -/
  exposed : Bool
  /-- WithinSetStyle flag. -/
  withinSetStyle : Bool
  /-- OpenGL_ES2 flag (ANGLE surface). -/
  openglES2 : Bool
  /-- HasBorderInFullScreen flag. -/
  hasBorderInFullScreen : Bool
  /-- GetCapture() currently returns this window. -/
  mouseCaptured : Bool
  /-- AutoMouseCapture flag. -/
  autoMouseCapture : Bool
  /-- m_opacity (a qreal; modelled as a rational). -/
  opacity : Rat
  /-- window()->isTopLevel(). -/
  topLevel : Bool
  /-- Dynamic property _q_showWithoutActivating of the QWindow. -/
  showWithoutActivating : Bool
  /-- isLayered(). -/
  layered : Bool
deriving Repr, DecidableEq

/-- Environment of OS-dependent and out-of-subsystem data the code consults.
These are oracles for values the code reads but does not compute. -/
structure OsEnv where
  /-- Native geometry of window()->screen() falling back to the primary
  screen (QHighDpi::toNativePixels(screen->geometry())); none when no screen
  exists at all. -/
  screenGeometry : Option QRect
  /-- Frame rectangle the OS assigns when maximizing the window. -/
  maximizedFrameGeometry : QRect
  /-- AdjustWindowRectEx-derived margins per (style, exStyle), after the
  qAbs in QWindowsGeometryHint::frame. -/
  adjustedFrame : Nat → Nat → QMargins
  /-- The OS correction applied to a frame rectangle requested via
  MoveWindow (WM_WINDOWPOSCHANGING constraint handling, minimum tracking
  size from the title bar, heightForWidth correction). -/
  constrainFrame : QRect → QRect
  /-- GetAncestor-derived current transient parent handle (0 for none). -/
  oldTransientParent : Nat
  /-- Handle of the transient parent the window should have (0 for none),
  from window()->transientParent(), skipping windows within destroy. -/
  newTransientParent : Nat
  /-- screenForGeometry(m_data.geometry) differs from screen(). -/
  screenChanged : Bool
  /-- QWindowsGeometryHint::mapToGlobal(hwnd, p) (defined outside this
  translation unit; only consulted when a handle exists). -/
  mapToGlobalNative : QPoint → QPoint
  /-- QWindowsGeometryHint::mapFromGlobal(hwnd, p) (defined outside this
  translation unit; only consulted when a handle exists). -/
  mapFromGlobalNative : QPoint → QPoint
  /-- QWindowsGeometryHint::positionIncludesFrame(window()). -/
  positionIncludesFrame : Bool
  /-- window()->parent() is non-null. -/
  hasParent : Bool
  /-- QGuiApplication::focusWindow() is non-null. -/
  hasFocusWindow : Bool

/-- IsWindowVisible(hwnd) for a top-level window: the WS_VISIBLE style bit. -/
def isWindowVisible (w : QWindowsWindow) : Bool :=
  w.style.testBit 28

/-- QWindowsWindow::isVisible: m_data.hwnd and IsWindowVisible(m_data.hwnd). -/
def isVisible (w : QWindowsWindow) : Bool :=
  w.hwnd && isWindowVisible w

/-- windowVisibility_sys: Hidden when not visible, else Minimized or
Maximized per the placement show command, else Windowed. -/
def windowVisibility_sys (w : QWindowsWindow) : Visibility :=
  if ¬ isWindowVisible w then .hidden
  else if w.osMinimized then .minimized
  else if w.osMaximized then .maximized
  else .windowed

/-- QWindowsWindow::setStyle: SetWindowLongPtr(GWL_STYLE, s) with the
FrameDirty flag set (the WithinSetStyle flag is set and cleared around the
call; reentrant dispatch is not modelled, so it has no net effect). -/
def setStyle (s : Nat) (w : QWindowsWindow) : QWindowsWindow × List NativeEvent :=
  ({w with frameDirty := true, style := s}, [.setWindowLongStyle s])

/-- OS effect of ShowWindow(hwnd, cmd) together with the traced call. Show
commands make the window visible (set WS_VISIBLE); maximize sets the
WS_MAXIMIZE style bit, clears WS_MINIMIZE, records the maximized placement
and moves the frame to the OS-chosen maximized bounds; minimize commands
set WS_MINIMIZE and clear WS_MAXIMIZE; restore commands clear both and
return a maximized or iconic window to its placement rcNormalPosition. -/
def applyShowWindow (env : OsEnv) (cmd : Nat) (w : QWindowsWindow) :
    QWindowsWindow × List NativeEvent :=
  let w :=
    if cmd = SW_HIDE then
      {w with style := w.style &&& wnot WS_VISIBLE}
    else if cmd = SW_SHOWMAXIMIZED then
      {w with style := (w.style ||| WS_VISIBLE ||| WS_MAXIMIZE) &&& wnot WS_MINIMIZE,
              osMinimized := false, osMaximized := true,
              frameGeometry := env.maximizedFrameGeometry}
    else if cmd = SW_SHOWNORMAL ∨ cmd = SW_SHOWNOACTIVATE ∨ cmd = SW_RESTORE then
      if w.osMaximized ∨ w.osMinimized then
        {w with style := (w.style ||| WS_VISIBLE) &&& wnot WS_MAXIMIZE &&& wnot WS_MINIMIZE,
                osMinimized := false, osMaximized := false,
                frameGeometry := w.normalPosRect}
      else {w with style := w.style ||| WS_VISIBLE}
    else if cmd = SW_SHOWMINIMIZED ∨ cmd = SW_MINIMIZE ∨ cmd = SW_SHOWMINNOACTIVE then
      {w with style := (w.style ||| WS_VISIBLE ||| WS_MINIMIZE) &&& wnot WS_MAXIMIZE,
              osMinimized := true, osMaximized := false}
    else
      {w with style := w.style ||| WS_VISIBLE}
  (w, [.showWindowCall cmd])

/-- OS effect of SetWindowPos(hwnd, hwndAfter, x, y, cx, cy, f) together with
the traced call: position and size apply unless suppressed by SWP_NOMOVE and
SWP_NOSIZE, SWP_HIDEWINDOW and SWP_SHOWWINDOW toggle WS_VISIBLE, and for a
window that is neither maximized nor iconic the placement rcNormalPosition
follows the frame. Reentrant WM_WINDOWPOSCHANGED dispatch is not modelled
here (see setGeometry_sys for where the code depends on it). -/
def applySetWindowPos (hwndAfter : Int) (x y cx cy : Int) (f : Nat)
    (w : QWindowsWindow) : QWindowsWindow × List NativeEvent :=
  let r := w.frameGeometry
  let nx := if f &&& SWP_NOMOVE ≠ 0 then r.x else x
  let ny := if f &&& SWP_NOMOVE ≠ 0 then r.y else y
  let ncx := if f &&& SWP_NOSIZE ≠ 0 then r.width else cx
  let ncy := if f &&& SWP_NOSIZE ≠ 0 then r.height else cy
  let newFrame : QRect := ⟨nx, ny, ncx, ncy⟩
  let newStyle :=
    if f &&& SWP_HIDEWINDOW ≠ 0 then w.style &&& wnot WS_VISIBLE
    else if f &&& SWP_SHOWWINDOW ≠ 0 then w.style ||| WS_VISIBLE
    else w.style
  ({w with frameGeometry := newFrame, style := newStyle,
           normalPosRect :=
             if ¬ w.osMaximized ∧ ¬ w.osMinimized then newFrame else w.normalPosRect},
   [.setWindowPosCall hwndAfter x y cx cy f])

/-- Static helper normalFrameGeometry(HWND): the placement rcNormalPosition
(the windowPlacementOffset correction for the single-screen case is zero). -/
def normalFrameGeometry (w : QWindowsWindow) : QRect :=
  w.normalPosRect

/-- Static helper frameGeometry(HWND, topLevel): for a minimized top-level
window the placement rcNormalPosition, otherwise the window rectangle. -/
def frameGeometryOf (w : QWindowsWindow) : QRect :=
  if w.topLevel ∧ w.osMinimized then w.normalPosRect else w.frameGeometry

/-- QWindowsBaseWindow::frameGeometry_sys. -/
def frameGeometry_sys (w : QWindowsWindow) : QRect :=
  frameGeometryOf w

/-- QWindowsGeometryHint::frame(style, exStyle): margins the OS adds for a
style (AdjustWindowRectEx with WS_OVERLAPPED stripped, absolute values). -/
def QWindowsGeometryHint_frame (env : OsEnv) (style exStyle : Nat) : QMargins :=
  env.adjustedFrame (style &&& wnot WS_OVERLAPPED) exStyle

/-- QWindowsWindow::frameMargins: lazily recomputed cached margins. Windows
claiming to be frameless always get zero style-derived margins; the custom
margins are added to the cached frame in every case. -/
def frameMargins (env : OsEnv) (w : QWindowsWindow) : QMargins × QWindowsWindow :=
  if w.frameDirty then
    let f := if w.flags &&& FramelessWindowHint ≠ 0 then (⟨0, 0, 0, 0⟩ : QMargins)
             else QWindowsGeometryHint_frame env w.style w.exStyle
    (f.add w.customMargins, {w with frame := f, frameDirty := false})
  else (w.frame.add w.customMargins, w)

/-- QWindowsBaseWindow::geometry_sys: the native frame rectangle with the
frame margins stripped (threading the margin-cache update). -/
def geometry_sys (env : OsEnv) (w : QWindowsWindow) : QRect × QWindowsWindow :=
  let m := frameMargins env w
  ((frameGeometry_sys m.2).marginsRemoved m.1, m.2)

/-- QWindowsWindow::fireExpose: an empty region with force unset clears the
Exposed flag, any other call sets it; the expose event is forwarded. -/
def fireExpose (region : Option QRect) (force : Bool) (w : QWindowsWindow) :
    QWindowsWindow × List NativeEvent :=
  let isEmptyRegion : Bool := match region with
    | none => true
    | some r => ¬ r.isValid
  let w := if isEmptyRegion && ¬ force then {w with exposed := false}
           else {w with exposed := true}
  (w, [.exposeEvent region])

/-- The record-saving step at the top of the full-screen entry branch of
setWindowState_sys: save style and frame geometry unless a record is
already pending, taking the placement normal geometry (when valid) when
coming from Minimized or Maximized and the current frame geometry
otherwise. -/
def saveFullScreenRecord (oldState : WindowState) (w : QWindowsWindow) : QWindowsWindow :=
  if w.savedStyle = 0 then
    let w := {w with savedStyle := w.style}
    if oldState = .minimized ∨ oldState = .maximized then
      let nf := normalFrameGeometry w
      if nf.isValid then {w with savedFrameGeometry := nf} else w
    else {w with savedFrameGeometry := frameGeometry_sys w}
  else w

/-- Entering full screen in setWindowState_sys: save style and frame
geometry unless a record is already pending, switch to a borderless popup
style (keeping WS_SYSMENU, visibility, and optionally a border), and size
the window to the screen with a frame-changed SetWindowPos, notifying the
toolkit of the new geometry. -/
def enterFullScreen (env : OsEnv) (oldState : WindowState) (visible : Bool)
    (w : QWindowsWindow) : QWindowsWindow × List NativeEvent :=
  let newStyle0 := WS_CLIPCHILDREN ||| WS_CLIPSIBLINGS ||| WS_POPUP
  let w := saveFullScreenRecord oldState w
  let newStyle := newStyle0
      ||| (if w.savedStyle &&& WS_SYSMENU ≠ 0 then WS_SYSMENU else 0)
      ||| (if visible then WS_VISIBLE else 0)
      ||| (if w.hasBorderInFullScreen then WS_BORDER else 0)
  let s1 := setStyle newStyle w
  let r := match env.screenGeometry with
    | some g => g
    | none => s1.1.savedFrameGeometry
  let swpf := SWP_FRAMECHANGED ||| SWP_NOACTIVATE
  let s2 := applySetWindowPos HWND_TOP r.x r.y r.width r.height swpf s1.1
  (s2.1, s1.2 ++ s2.2 ++ [.geometryChangeEvent r])

/-- Leaving full screen in setWindowState_sys (target state is not
Minimized): restore the saved style (falling back to the current style when
no record is pending) and the saved frame geometry (position and size are
suppressed when the record is invalid), clearing a stale OS maximized state
first, reasserting the show state for visible windows, and clearing the
saved record. -/
def leaveFullScreen (env : OsEnv) (newState : WindowState) (visible : Bool)
    (w : QWindowsWindow) : QWindowsWindow × List NativeEvent :=
  let newStyle := (if w.savedStyle ≠ 0 then w.savedStyle else w.style)
      ||| (if visible then WS_VISIBLE else 0)
  let s1 := setStyle newStyle w
  let swpf := SWP_FRAMECHANGED ||| SWP_NOZORDER ||| SWP_NOACTIVATE
  let swpf := if ¬ s1.1.savedFrameGeometry.isValid then swpf ||| SWP_NOSIZE ||| SWP_NOMOVE
              else swpf
  let s2 :=
    if windowVisibility_sys s1.1 = .maximized then applyShowWindow env SW_SHOWNOACTIVATE s1.1
    else (s1.1, [])
  let s3 := applySetWindowPos 0 s2.1.savedFrameGeometry.x s2.1.savedFrameGeometry.y
      s2.1.savedFrameGeometry.width s2.1.savedFrameGeometry.height swpf s2.1
  let s4 :=
    if visible then
      applyShowWindow env (if newState = .maximized then SW_MAXIMIZE else SW_SHOWNA) s3.1
    else (s3.1, [])
  ({s4.1 with savedStyle := 0, savedFrameGeometry := nullRect},
   s1.2 ++ s2.2 ++ s3.2 ++ s4.2)

/-- QWindowsWindow::setWindowState_sys: no-op when the state is unchanged;
otherwise the full-screen emulation block (enter or leave), the maximize
toggle block, and the minimize toggle block, as in the source. The
SynchronousGeometryChangeEvent, WithinMaximize and MaximizeToFullScreen
flags only steer reentrant message handling and are not modelled. -/
def setWindowState_sys (env : OsEnv) (newState : WindowState) (w : QWindowsWindow) :
    QWindowsWindow × List NativeEvent :=
  let oldState := w.windowState
  if oldState = newState then (w, [])
  else
    let visible := isVisible w
    let w := {w with frameDirty := true}
    let s1 :=
      if (oldState == WindowState.fullScreen) != (newState == WindowState.fullScreen) then
        if newState = .fullScreen then enterFullScreen env oldState visible w
        else if newState ≠ .minimized then leaveFullScreen env newState visible w
        else (w, [])
      else if (oldState == WindowState.maximized) != (newState == WindowState.maximized) then
        if visible ∧ newState ≠ .minimized then
          applyShowWindow env
            (if newState = .maximized then SW_MAXIMIZE else SW_SHOWNOACTIVATE) w
        else (w, [])
      else (w, [])
    let s2 :=
      if (oldState == WindowState.minimized) != (newState == WindowState.minimized) then
        if visible then
          applyShowWindow env
            (if newState = .minimized then SW_MINIMIZE
             else if newState = .maximized then SW_MAXIMIZE else SW_SHOWNORMAL) s1.1
        else (s1.1, [])
      else (s1.1, [])
    (s2.1, s1.2 ++ s2.2)

/-- QWindowsWindow::setWindowState: only acts when a native handle exists,
then records the new state in m_windowState. -/
def setWindowState (env : OsEnv) (state : WindowState) (w : QWindowsWindow) :
    QWindowsWindow × List NativeEvent :=
  if w.hwnd then
    let s := setWindowState_sys env state w
    ({s.1 with windowState := state}, s.2)
  else (w, [])

/-- window()->type(): the type bits of the window flags. -/
def windowType (w : QWindowsWindow) : Nat :=
  w.flags &&& WindowType_Mask

/-- QWindowsWindow::handleGeometryChange: read back the native geometry and
reconcile it into the toolkit model; synthesize an expose for the new client
area when an exposed non-ANGLE window did not grow in either dimension but
changed size; notify a screen change when the origin moved across screens.
Recursion guard: nothing happens while within setStyle. -/
def handleGeometryChange (env : OsEnv) (w : QWindowsWindow) :
    QWindowsWindow × List NativeEvent :=
  if w.withinSetStyle then (w, [])
  else
    let previousGeometry := w.geometry
    let gs := geometry_sys env w
    let g := gs.1
    let w := {gs.2 with geometry := g, qplatformGeometry := g}
    let t1 := [NativeEvent.geometryChangeEvent g]
    let s2 :=
      if ¬ w.openglES2 && w.exposed
          && decide (g.size ≠ previousGeometry.size)
          && ¬ (decide (g.width > previousGeometry.width)
                || decide (g.height > previousGeometry.height)) then
        fireExpose (some ⟨0, 0, g.width, g.height⟩) true w
      else (w, [])
    let t3 :=
      if decide (previousGeometry.topLeft ≠ g.topLeft) && env.screenChanged then
        [NativeEvent.screenChangeEvent]
      else []
    (s2.1, t1 ++ s2.2 ++ t3)

/-- QWindowsWindow::updateTransientParent: popups are skipped; the owner
handle is rewritten only when it changes. -/
def updateTransientParent (env : OsEnv) (w : QWindowsWindow) :
    QWindowsWindow × List NativeEvent :=
  if windowType w = Qt_Popup then (w, [])
  else if env.newTransientParent ≠ env.oldTransientParent then
    (w, [.transientParentCall env.newTransientParent])
  else (w, [])

/-- QWindowsWindow::show_sys: choose the show command from the window state
and type; when showing maximized a window whose style lacks the maximize box
(title hint present, min/max buttons and frameless hints absent), add
WS_MAXIMIZEBOX for the duration of the ShowWindow call and remove it again
with a frame-changed SetWindowPos (the WithinMaximize flag only steers
reentrant message handling and is not modelled). -/
def show_sys (env : OsEnv) (w : QWindowsWindow) : QWindowsWindow × List NativeEvent :=
  let flags := w.flags
  let type := windowType w
  let pre : Nat × Bool × QWindowsWindow × List NativeEvent :=
    if w.topLevel then
      let state := w.windowState
      if state = .minimized then
        ((if ¬ isVisible w then SW_SHOWMINNOACTIVE else SW_SHOWMINIMIZED),
         false, w, [])
      else
        let tp := updateTransientParent env w
        if state = .maximized then
          if flags &&& WindowTitleHint ≠ 0
              ∧ flags &&& (WindowMinMaxButtonsHint ||| FramelessWindowHint) = 0 then
            let st := setStyle (tp.1.style ||| WS_MAXIMIZEBOX) tp.1
            (SW_SHOWMAXIMIZED, true, st.1, tp.2 ++ st.2)
          else (SW_SHOWMAXIMIZED, false, tp.1, tp.2)
        else (SW_SHOWNORMAL, false, tp.1, tp.2)
    else (SW_SHOWNORMAL, false, w, [])
  let fakedMaximize := pre.2.1
  let sm := if type = Qt_Popup ∨ type = Qt_ToolTip ∨ type = Qt_Tool
               ∨ w.showWithoutActivating then SW_SHOWNOACTIVATE else pre.1
  let s1 := applyShowWindow env sm pre.2.2.1
  let s2 :=
    if fakedMaximize then
      let e1 := setStyle (s1.1.style &&& wnot WS_MAXIMIZEBOX) s1.1
      let e2 := applySetWindowPos 0 0 0 0 0
          (SWP_NOACTIVATE ||| SWP_NOMOVE ||| SWP_NOSIZE ||| SWP_NOZORDER
           ||| SWP_NOOWNERZORDER ||| SWP_FRAMECHANGED) e1.1
      (e2.1, e1.2 ++ e2.2)
    else (s1.1, [])
  (s2.1, pre.2.2.2 ++ s1.2 ++ s2.2)

/-- QWindowsBaseWindow::hide_sys: hide without activating another window. -/
def hide_sys (w : QWindowsWindow) : QWindowsWindow × List NativeEvent :=
  applySetWindowPos 0 0 0 0 0
    (SWP_HIDEWINDOW ||| SWP_NOSIZE ||| SWP_NOMOVE ||| SWP_NOZORDER ||| SWP_NOACTIVATE) w

/-- QWindowsWindow::setMouseGrabEnabled: warn and fail without a handle or
when grabbing an invisible window; otherwise clear auto capture and toggle
the native capture if it differs. Returns the window, the trace and the
functions return value. -/
def setMouseGrabEnabled (grab : Bool) (w : QWindowsWindow) :
    (QWindowsWindow × List NativeEvent) × Bool :=
  if ¬ w.hwnd then ((w, [.warningMsg]), false)
  else if ¬ isVisible w && grab then ((w, [.warningMsg]), false)
  else
    let w := {w with autoMouseCapture := false}
    if w.mouseCaptured ≠ grab then
      if grab then (({w with mouseCaptured := true}, [.setCaptureCall]), grab)
      else (({w with mouseCaptured := false}, [.releaseCaptureCall]), grab)
    else ((w, []), grab)

/-- QWindowsWindow::setKeyboardGrabEnabled: warn and fail without a handle;
otherwise update the process-wide key grabber (a QWindowsContext member,
passed and returned explicitly here; no native call is involved). Returns
the trace, the functions return value and the new grabber-is-this-window
state. -/
def setKeyboardGrabEnabled (grab : Bool) (keyGrabberIsThis : Bool)
    (w : QWindowsWindow) : (QWindowsWindow × List NativeEvent) × (Bool × Bool) :=
  if ¬ w.hwnd then ((w, [.warningMsg]), (false, keyGrabberIsThis))
  else if grab then ((w, []), (true, true))
  else ((w, []), (true, false))

/-- QWindowsWindow::setVisible: no-op without a handle. Showing runs
show_sys, fires an expose for layered windows, and raises parentless
popups when no window has focus; hiding releases a mouse grab, hides
(popups via ShowWindow SW_HIDE, others via hide_sys) and fires an empty
expose. -/
def setVisible (env : OsEnv) (visible : Bool) (w : QWindowsWindow) :
    QWindowsWindow × List NativeEvent :=
  if w.hwnd then
    if visible then
      let s1 := show_sys env w
      let s2 :=
        if s1.1.layered then
          fireExpose (some ⟨0, 0, s1.1.geometry.width, s1.1.geometry.height⟩) false s1.1
        else (s1.1, [])
      let t4 :=
        if windowType s2.1 = Qt_Popup ∧ ¬ env.hasParent ∧ ¬ env.hasFocusWindow then
          [NativeEvent.setForegroundWindowCall]
        else []
      (s2.1, s1.2 ++ s2.2 ++ t4)
    else
      let s1 :=
        if w.mouseCaptured then (setMouseGrabEnabled false w).1
        else (w, [])
      let s2 :=
        if s1.1.flags &&& Qt_Popup ≠ 0 then applyShowWindow env SW_HIDE s1.1
        else hide_sys s1.1
      let s3 := fireExpose none false s2.1
      (s3.1, s1.2 ++ s2.2 ++ s3.2)
  else (w, [])

/-- QWindowsBaseWindow::setGeometry_sys: compute the frame rectangle from
the client rectangle and the margins; for a window that is minimized, or
maximized while hidden, only rewrite the placement normal position;
otherwise MoveWindow, whose WM_WINDOWPOSCHANGED is dispatched synchronously
and reconciled by handleGeometryChange before the call returns. -/
def setGeometry_sys (env : OsEnv) (rect : QRect) (w : QWindowsWindow) :
    QWindowsWindow × List NativeEvent :=
  let fm := frameMargins env w
  let w := fm.2
  let frameGeometry := rect.marginsAdded fm.1
  if (w.osMaximized ∧ ¬ isWindowVisible w) ∨ w.osMinimized then
    let showCmd := if w.osMinimized then SW_SHOWMINIMIZED else SW_HIDE
    ({w with normalPosRect := frameGeometry},
     [.setWindowPlacementCall frameGeometry showCmd])
  else
    let applied := env.constrainFrame frameGeometry
    let w := {w with frameGeometry := applied,
                     normalPosRect := if ¬ w.osMaximized ∧ ¬ w.osMinimized
                                      then applied else w.normalPosRect}
    let hg := handleGeometryChange env w
    (hg.1, .moveWindowCall frameGeometry :: hg.2)

/-- QWindowsWindow::setGeometry: shift by the frame margins when the request
includes the frame; for minimized windows record the geometry directly;
with a handle delegate to setGeometry_sys and warn when the resulting
geometry differs from the request; without a handle only record the request
in the QPlatformWindow base class. -/
def setGeometry (env : OsEnv) (rectIn : QRect) (w : QWindowsWindow) :
    QWindowsWindow × List NativeEvent :=
  let rw :=
    if env.positionIncludesFrame then
      let fm := frameMargins env w
      (({rectIn with x := rectIn.x + fm.1.left, y := rectIn.y + fm.1.top} : QRect), fm.2)
    else (rectIn, w)
  let rect := rw.1
  let w := if rw.2.windowState = .minimized then {rw.2 with geometry := rect} else rw.2
  if w.hwnd then
    let s := setGeometry_sys env rect w
    (s.1, s.2 ++ (if s.1.geometry ≠ rect then [NativeEvent.warningMsg] else []))
  else ({w with qplatformGeometry := rect}, [])

/-- QWindowsWindow::setWindowIcon: only with a handle: rebuild the two icon
handles and send the WM_SETICON pair. -/
def setWindowIcon (w : QWindowsWindow) : QWindowsWindow × List NativeEvent :=
  if w.hwnd then (w, [.iconMessages]) else (w, [])

/-- qFuzzyCompare for qreal: the difference is at most 10 to the minus 12
times the smaller magnitude. -/
def qFuzzyCompare (p1 p2 : Rat) : Bool :=
  decide (|p1 - p2| * 1000000000000 ≤ min |p1| |p2|)

/-- QWindowsWindow::setOpacity: record the level when it fuzzily differs;
with a handle additionally apply it natively via setWindowOpacity. -/
def setOpacity (level : Rat) (w : QWindowsWindow) : QWindowsWindow × List NativeEvent :=
  if ¬ qFuzzyCompare w.opacity level then
    let w := {w with opacity := level}
    if w.hwnd then (w, [.layeredUpdateCall]) else (w, [])
  else (w, [])

/-- QWindowsWindow::mapToGlobal: translate through the native handle when
one exists, otherwise return the point unchanged. -/
def mapToGlobal (env : OsEnv) (w : QWindowsWindow) (pos : QPoint) : QPoint :=
  if w.hwnd then env.mapToGlobalNative pos else pos

/-- QWindowsWindow::mapFromGlobal: translate through the native handle when
one exists, otherwise return the point unchanged. -/
def mapFromGlobal (env : OsEnv) (w : QWindowsWindow) (pos : QPoint) : QPoint :=
  if w.hwnd then env.mapFromGlobalNative pos else pos

/-! Window creation planner: WindowCreationData and its helpers. -/

/-- The data of the QWindow consulted by WindowCreationData::fromWindow. -/
structure QWindowInfo where
  /-- w->isTopLevel(). -/
  isTopLevel : Bool
  /-- Dynamic property _q_embedded_native_parent_handle (an HWND value). -/
  embeddedNativeParentHandleProp : Option Nat
  /-- QWindowsWindow::handleOf(w->transientParent()), 0 when absent. -/
  transientParentHandle : Nat
  /-- QWindowsWindow::handleOf(w->parent()), 0 when absent. -/
  parentHandle : Nat
  /-- w->maximumSize() equals QSize(QWINDOWSIZE_MAX, QWINDOWSIZE_MAX). -/
  maximumSizeUnbounded : Bool
deriving Repr, DecidableEq

/-- WindowCreationData::Flags. -/
def ForceChild : Nat := 0x1
def ForceTopLevel : Nat := 0x2

/-- Static helper fixTopLevelWindowFlags: strip the unsupported fullscreen
button hint, expand a bare type into the canonical decoration set for plain
windows, dialogs and tools, and force frameless for splash screens. -/
def fixTopLevelWindowFlags (flagsIn : Nat) : Nat :=
  let flags := flagsIn &&& wnot WindowFullscreenButtonHint
  let flags :=
    if flags = Qt_Window then
      flags ||| WindowTitleHint ||| WindowSystemMenuHint ||| WindowMinimizeButtonHint
            ||| WindowMaximizeButtonHint ||| WindowCloseButtonHint
    else if flags = Qt_Dialog then
      flags ||| WindowTitleHint ||| WindowSystemMenuHint ||| WindowContextHelpButtonHint
            ||| WindowCloseButtonHint
    else if flags = Qt_Tool then
      flags ||| WindowTitleHint ||| WindowSystemMenuHint ||| WindowCloseButtonHint
    else flags
  if flags &&& WindowType_Mask = Qt_SplashScreen then flags ||| FramelessWindowHint
  else flags

/-- Static helper shouldShowMaximizeButton: never for fixed-size dialogs or
without the hint; with the hint, when decorations are customized or the
maximum size is unbounded. -/
def shouldShowMaximizeButton (info : QWindowInfo) (flags : Nat) : Bool :=
  if flags &&& MSWindowsFixedSizeDialogHint ≠ 0 ∨ flags &&& WindowMaximizeButtonHint = 0 then
    false
  else
    decide (flags &&& CustomizeWindowHint ≠ 0) || info.maximumSizeUnbounded

/-- WindowCreationData: the window classification and native styles derived
from a windows flags, type and parent. -/
structure WindowCreationData where
  flags : Nat
  parentHandle : Nat
  type : Nat
  style : Nat
  exStyle : Nat
  topLevel : Bool
  popup : Bool
  dialog : Bool
  tool : Bool
  embedded : Bool
deriving Repr, DecidableEq

/-- WindowCreationData::fromWindow: classify the window and compute the
native style and extended style by the rule table of the source (the
Q_FLATTEN_EXPOSE and WinCE variants are not built). -/
def fromWindow (info : QWindowInfo) (flagsIn : Nat) (creationFlags : Nat) :
    WindowCreationData :=
  let flags := flagsIn
  let ep : Bool × Nat :=
    match info.embeddedNativeParentHandleProp with
    | some h => (true, h)
    | none => (false, 0)
  let embedded := ep.1
  let topLevel :=
    if creationFlags &&& ForceChild ≠ 0 then false
    else if embedded then false
    else if creationFlags &&& ForceTopLevel ≠ 0 then true
    else info.isTopLevel
  let flags := if topLevel then fixTopLevelWindowFlags flags else flags
  let type := flags &&& WindowType_Mask
  let dialog := type = Qt_Dialog ∨ type = Qt_Sheet
  let tool := type = Qt_Drawer ∨ type = Qt_Tool
  let popup := type = Qt_Popup
  let dialog := dialog ∨ flags &&& MSWindowsFixedSizeDialogHint ≠ 0
  let fp : Nat × Nat :=
    if popup then (flags ||| WindowStaysOnTopHint, ep.2)
    else if ¬ embedded then
      (flags, if topLevel then info.transientParentHandle else info.parentHandle)
    else (flags, ep.2)
  let flags := fp.1
  let parentHandle := fp.2
  let style :=
    if popup ∨ type = Qt_ToolTip ∨ type = Qt_SplashScreen then WS_POPUP
    else if topLevel then
      if flags &&& FramelessWindowHint ≠ 0 then WS_POPUP
      else if flags &&& WindowTitleHint ≠ 0 then WS_OVERLAPPED
      else 0
    else WS_CHILD
  let style := style ||| WS_CLIPSIBLINGS ||| WS_CLIPCHILDREN
  let se : Nat × Nat :=
    if topLevel then
      let se0 : Nat × Nat :=
        if type = Qt_Window ∨ dialog ∨ tool then
          let style :=
            if flags &&& FramelessWindowHint = 0 then
              let style := style ||| WS_POPUP
              let style :=
                if flags &&& MSWindowsFixedSizeDialogHint ≠ 0 then style ||| WS_DLGFRAME
                else style ||| WS_THICKFRAME
              if flags &&& WindowTitleHint ≠ 0 then style ||| WS_CAPTION else style
            else style
          let sm : Nat × Nat :=
            if flags &&& WindowSystemMenuHint ≠ 0 then (style ||| WS_SYSMENU, 0)
            else if dialog ∧ flags &&& WindowCloseButtonHint ≠ 0
                ∧ flags &&& FramelessWindowHint = 0 then
              (style ||| WS_SYSMENU ||| WS_BORDER, WS_EX_DLGMODALFRAME)
            else (style, 0)
          let style := sm.1
          let style :=
            if flags &&& WindowMinimizeButtonHint ≠ 0 then style ||| WS_MINIMIZEBOX
            else style
          let style :=
            if shouldShowMaximizeButton info flags then style ||| WS_MAXIMIZEBOX
            else style
          let exStyle := if tool then sm.2 ||| WS_EX_TOOLWINDOW else sm.2
          let exStyle :=
            if flags &&& WindowContextHelpButtonHint ≠ 0 then exStyle ||| WS_EX_CONTEXTHELP
            else exStyle
          (style, exStyle)
        else (style, WS_EX_TOOLWINDOW)
      let exStyle :=
        if flagsIn &&& WindowTransparentForInput ≠ 0 then
          se0.2 ||| WS_EX_LAYERED ||| WS_EX_TRANSPARENT
        else se0.2
      (se0.1, exStyle)
    else (style, 0)
  ⟨flags, parentHandle, type, se.1, se.2, topLevel, popup, dialog, tool, embedded⟩

/-- The system-menu close-item step of WindowCreationData::initialize: for
top-level windows with customized decorations or a title, the SC_CLOSE item
is enabled exactly when the close button hint is present (none when the
step is skipped). -/
def initializeCloseMenuItem (d : WindowCreationData) : Option Bool :=
  if d.topLevel ∧ d.flags &&& (CustomizeWindowHint ||| WindowTitleHint) ≠ 0 then
    some (d.flags &&& WindowCloseButtonHint ≠ 0)
  else none

/-! Geometry hint. -/

/-- QWindowsGeometryHint: native minimum and maximum sizes plus custom
margins. -/
structure QWindowsGeometryHint where
  minimumSize : QSize
  maximumSize : QSize
  customMargins : QMargins
deriving Repr, DecidableEq

/-- QWindowsGeometryHint::validSize: the size lies within the minimum and
maximum on both axes. -/
def QWindowsGeometryHint.validSize (h : QWindowsGeometryHint) (s : QSize) : Bool :=
  decide (s.width ≥ h.minimumSize.width) && decide (s.width ≤ h.maximumSize.width)
    && decide (s.height ≥ h.minimumSize.height) && decide (s.height ≤ h.maximumSize.height)

/-! Concrete fixtures used by witnesses and counterexamples. -/

/-- A plain visible top-level window in the Normal state with an ordinary
overlapped-window style and no saved record. -/
def baseWindow : QWindowsWindow where
  hwnd := true
  style := WS_OVERLAPPED ||| WS_CAPTION ||| WS_THICKFRAME ||| WS_SYSMENU
    ||| WS_MINIMIZEBOX ||| WS_MAXIMIZEBOX ||| WS_CLIPSIBLINGS ||| WS_CLIPCHILDREN
    ||| WS_VISIBLE
  exStyle := 0
  frameGeometry := ⟨100, 100, 640, 480⟩
  normalPosRect := ⟨100, 100, 640, 480⟩
  osMaximized := false
  osMinimized := false
  windowState := .noState
  savedStyle := 0
  savedFrameGeometry := nullRect
  geometry := ⟨108, 131, 624, 441⟩
  qplatformGeometry := ⟨108, 131, 624, 441⟩
  flags := Qt_Window ||| WindowTitleHint ||| WindowSystemMenuHint
  frame := ⟨8, 31, 8, 8⟩
  customMargins := ⟨0, 0, 0, 0⟩
  frameDirty := false
  exposed := true
  withinSetStyle := false
  openglES2 := false
  hasBorderInFullScreen := false
  mouseCaptured := false
  autoMouseCapture := false
  opacity := 1
  topLevel := true
  showWithoutActivating := false
  layered := false

/-- A fixed environment: one full-HD screen, ordinary frame margins, the OS
applying requested geometry verbatim. -/
def baseEnv : OsEnv where
  screenGeometry := some ⟨0, 0, 1920, 1080⟩
  maximizedFrameGeometry := ⟨-8, -8, 1936, 1056⟩
  adjustedFrame := fun _ _ => ⟨8, 31, 8, 8⟩
  constrainFrame := fun r => r
  oldTransientParent := 0
  newTransientParent := 0
  screenChanged := false
  mapToGlobalNative := fun p => ⟨p.x + 100, p.y + 131⟩
  mapFromGlobalNative := fun p => ⟨p.x - 100, p.y - 131⟩
  positionIncludesFrame := false
  hasParent := false
  hasFocusWindow := false

/-- The base window before its native window was created. -/
def noHandleWindow : QWindowsWindow :=
  {baseWindow with hwnd := false}

/-- A minimized window with a pending saved style/geometry record (as left
behind by leaving full screen towards Minimized). -/
def savedPendingWindow : QWindowsWindow :=
  {baseWindow with windowState := .minimized, osMinimized := true,
                   savedStyle := 0x00CF0000, savedFrameGeometry := ⟨10, 20, 300, 200⟩}

/-- A frameless window with custom margins and a dirty frame cache. -/
def framelessCustomWindow : QWindowsWindow :=
  {baseWindow with flags := Qt_Window ||| FramelessWindowHint,
                   customMargins := ⟨1, 2, 3, 4⟩, frameDirty := true}

/-- An exposed ANGLE (OpenGL ES2) window whose native frame just shrank in
both dimensions. -/
def es2Window : QWindowsWindow :=
  {baseWindow with openglES2 := true, geometry := ⟨0, 0, 200, 200⟩,
                   qplatformGeometry := ⟨0, 0, 200, 200⟩,
                   frameGeometry := ⟨0, 0, 100, 100⟩,
                   normalPosRect := ⟨0, 0, 100, 100⟩,
                   frame := ⟨0, 0, 0, 0⟩}

/-- An exposed raster window whose native frame just shrank in both
dimensions (margins zero for simplicity). -/
def shrunkWindow : QWindowsWindow :=
  {baseWindow with geometry := ⟨0, 0, 200, 200⟩,
                   qplatformGeometry := ⟨0, 0, 200, 200⟩,
                   frameGeometry := ⟨0, 0, 100, 100⟩,
                   normalPosRect := ⟨0, 0, 100, 100⟩,
                   frame := ⟨0, 0, 0, 0⟩}

/-- A visible top-level window about to be shown maximized, with the title
hint but neither min/max-buttons nor frameless hints, and a style lacking
the maximize box. -/
def maximizedShowWindow : QWindowsWindow :=
  {baseWindow with windowState := .maximized,
                   style := WS_OVERLAPPED ||| WS_CAPTION ||| WS_THICKFRAME
                     ||| WS_SYSMENU ||| WS_CLIPSIBLINGS ||| WS_CLIPCHILDREN ||| WS_VISIBLE}

/-- The same window while still hidden: WS_VISIBLE is not set yet. -/
def hiddenMaximizedShowWindow : QWindowsWindow :=
  {maximizedShowWindow with
     style := WS_OVERLAPPED ||| WS_CAPTION ||| WS_THICKFRAME
       ||| WS_SYSMENU ||| WS_CLIPSIBLINGS ||| WS_CLIPCHILDREN}

/-- A geometry hint with a proper box of valid sizes. -/
def hint8 : QWindowsGeometryHint := ⟨⟨10, 20⟩, ⟨100, 200⟩, ⟨0, 0, 0, 0⟩⟩

/-- A dialog-type window info: top level, not embedded, no transient
parent, bounded maximum size. -/
def dialogInfo : QWindowInfo := ⟨true, none, 0, 0, false⟩

/-! Helper lemmas on style words. -/

/-- Setting a bit that is already set leaves the word unchanged. -/
theorem lor_two_pow_eq_self {x i : Nat} (h : x.testBit i = true) :
    x ||| 2 ^ i = x := by
  apply Nat.eq_of_testBit_eq
  intro j
  rw [Nat.testBit_lor]
  by_cases hj : j = i
  · subst hj
    simp [h]
  · simp [Nat.testBit_two_pow_of_ne (fun he => hj he.symm)]

/-- Setting WS_VISIBLE on a style word with bit 28 already set is the
identity. -/
theorem lor_WS_VISIBLE_eq_self {x : Nat} (h : x.testBit 28 = true) :
    x ||| WS_VISIBLE = x := by
  have he : WS_VISIBLE = 2 ^ 28 := by decide
  rw [he]
  exact lor_two_pow_eq_self h

/-! C8: validSize characterizes the closed size box. -/

/-- C8: for geometry hints with componentwise minimum at most maximum,
validSize accepts exactly the sizes inside the closed box, so it rejects
every size strictly below the minimum or strictly above the maximum on at
least one axis. -/
theorem validSize_box (h : QWindowsGeometryHint) (s : QSize)
    (hmin : h.minimumSize.width ≤ h.maximumSize.width ∧
            h.minimumSize.height ≤ h.maximumSize.height) :
    h.validSize s = true ↔
      (h.minimumSize.width ≤ s.width ∧ s.width ≤ h.maximumSize.width ∧
       h.minimumSize.height ≤ s.height ∧ s.height ≤ h.maximumSize.height) := by
  simp [QWindowsGeometryHint.validSize, ge_iff_le, and_assoc]

/-- Witness for C8 at a concrete hint and size. -/
theorem validSize_box_witness :
    (hint8.minimumSize.width ≤ hint8.maximumSize.width ∧
     hint8.minimumSize.height ≤ hint8.maximumSize.height) ∧
    hint8.validSize ⟨50, 60⟩ = true :=
  ⟨by decide, (validSize_box hint8 ⟨50, 60⟩ (by decide)).mpr (by decide)⟩

/-! C10: coordinate mapping without a handle is the identity. -/

/-- C10: without a native handle both mapToGlobal and mapFromGlobal return
the point unchanged and consult no native translation. -/
theorem mapNoHandle_id (env : OsEnv) (w : QWindowsWindow) (p : QPoint)
    (h : w.hwnd = false) :
    mapToGlobal env w p = p ∧ mapFromGlobal env w p = p := by
  simp [mapToGlobal, mapFromGlobal, h]

/-- Witness for C10 at a concrete window and point. -/
theorem mapNoHandle_id_witness :
    mapToGlobal baseEnv noHandleWindow ⟨3, 4⟩ = ⟨3, 4⟩ ∧
    mapFromGlobal baseEnv noHandleWindow ⟨3, 4⟩ = ⟨3, 4⟩ :=
  mapNoHandle_id baseEnv noHandleWindow ⟨3, 4⟩ rfl

/-! C3: setWindowState is idempotent on the current state. -/

/-- C3: requesting the state the window is already in issues no native call
(the trace is empty) and leaves the whole per-window record, in particular
m_savedStyle and m_savedFrameGeometry, unchanged. -/
theorem setWindowState_idempotent (env : OsEnv) (w : QWindowsWindow) :
    (setWindowState env w.windowState w).2 = [] ∧
    (setWindowState env w.windowState w).1 = w := by
  by_cases hw : w.hwnd = true
  · cases w
    subst hw
    simp [setWindowState, setWindowState_sys]
  · simp [setWindowState, hw]

/-! Projection lemmas: the native-call helpers never touch the saved
style/geometry record. -/

theorem setStyle_fst_savedStyle (s : Nat) (w : QWindowsWindow) :
    (setStyle s w).1.savedStyle = w.savedStyle := rfl

theorem setStyle_fst_savedFrameGeometry (s : Nat) (w : QWindowsWindow) :
    (setStyle s w).1.savedFrameGeometry = w.savedFrameGeometry := rfl

theorem applySetWindowPos_fst_savedStyle (ha : Int) (x y cx cy : Int) (f : Nat)
    (w : QWindowsWindow) :
    (applySetWindowPos ha x y cx cy f w).1.savedStyle = w.savedStyle := rfl

theorem applySetWindowPos_fst_savedFrameGeometry (ha : Int) (x y cx cy : Int) (f : Nat)
    (w : QWindowsWindow) :
    (applySetWindowPos ha x y cx cy f w).1.savedFrameGeometry = w.savedFrameGeometry := rfl

theorem applyShowWindow_fst_savedStyle (env : OsEnv) (c : Nat) (w : QWindowsWindow) :
    (applyShowWindow env c w).1.savedStyle = w.savedStyle := by
  simp only [applyShowWindow]
  split_ifs <;> rfl

theorem applyShowWindow_fst_savedFrameGeometry (env : OsEnv) (c : Nat) (w : QWindowsWindow) :
    (applyShowWindow env c w).1.savedFrameGeometry = w.savedFrameGeometry := by
  simp only [applyShowWindow]
  split_ifs <;> rfl

/-- With a pending record, the saving step of the full-screen entry leaves
the window untouched. -/
theorem saveFullScreenRecord_of_pending (o : WindowState) (w : QWindowsWindow)
    (hp : w.savedStyle ≠ 0) : saveFullScreenRecord o w = w := by
  simp [saveFullScreenRecord, hp]

theorem enterFullScreen_fst_savedStyle (env : OsEnv) (o : WindowState) (v : Bool)
    (w : QWindowsWindow) (hp : w.savedStyle ≠ 0) :
    (enterFullScreen env o v w).1.savedStyle = w.savedStyle := by
  simp only [enterFullScreen, saveFullScreenRecord_of_pending o w hp]
  rfl

theorem enterFullScreen_fst_savedFrameGeometry (env : OsEnv) (o : WindowState) (v : Bool)
    (w : QWindowsWindow) (hp : w.savedStyle ≠ 0) :
    (enterFullScreen env o v w).1.savedFrameGeometry = w.savedFrameGeometry := by
  simp only [enterFullScreen, saveFullScreenRecord_of_pending o w hp]
  rfl

/-! C2: the saved style/geometry record is a single per-window slot and is
never overwritten when entering full screen while it is pending. -/

/-- C2: requesting FullScreen on a window whose saved record is pending
(m_savedStyle nonzero) leaves both the saved style and the saved frame
geometry untouched, whatever the current state; the record being a single
per-window field, at most one is active at any time by construction. -/
theorem enterFullScreen_preserves_pending_record (env : OsEnv) (w : QWindowsWindow)
    (hp : w.savedStyle ≠ 0) :
    (setWindowState env .fullScreen w).1.savedStyle = w.savedStyle ∧
    (setWindowState env .fullScreen w).1.savedFrameGeometry = w.savedFrameGeometry := by
  by_cases hw : w.hwnd = true
  · by_cases hst : w.windowState = WindowState.fullScreen
    · simp [setWindowState, setWindowState_sys, hw, hst]
    · cases hws : w.windowState
      all_goals try exact absurd hws hst
      all_goals
        by_cases hv : isVisible w = true <;>
          simp [setWindowState, setWindowState_sys, hw, hws, hp, hv,
            enterFullScreen_fst_savedStyle, enterFullScreen_fst_savedFrameGeometry,
            applyShowWindow_fst_savedStyle, applyShowWindow_fst_savedFrameGeometry]
  · simp [setWindowState, hw]

/-- Witness for C2: a minimized window with a pending record keeps it on a
full-screen request. -/
theorem enterFullScreen_preserves_pending_record_witness :
    (setWindowState baseEnv .fullScreen savedPendingWindow).1.savedStyle
        = savedPendingWindow.savedStyle ∧
    (setWindowState baseEnv .fullScreen savedPendingWindow).1.savedFrameGeometry
        = savedPendingWindow.savedFrameGeometry :=
  enterFullScreen_preserves_pending_record baseEnv savedPendingWindow (by decide)

/-! C6: frame margins of frameless windows. -/

/-- Adding margins to the zero margins is the identity. -/
theorem QMargins.zero_add (m : QMargins) : (⟨0, 0, 0, 0⟩ : QMargins).add m = m := by
  cases m
  simp [QMargins.add]

/-- C6 counterexample: a frameless window carrying custom margins does not
get zero margins from frameMargins; the custom margins are returned. -/
theorem frameMargins_frameless_counterexample :
    framelessCustomWindow.flags &&& FramelessWindowHint ≠ 0 ∧
    (frameMargins baseEnv framelessCustomWindow).1 ≠ ⟨0, 0, 0, 0⟩ := by
  decide

/-- C6 amended: for a frameless window with the frame cache marked dirty,
the style-derived frame is zero whatever the native style bits, so
frameMargins returns exactly the custom margins, hence zero on all four
sides when no custom margins are set; and frameMargins is deterministic:
under the same OS, windows agreeing on flags, style, extended style and
custom margins whose caches are dirty get the same margins. -/
theorem frameMargins_frameless (env : OsEnv) (w : QWindowsWindow)
    (hf : w.flags &&& FramelessWindowHint ≠ 0) (hd : w.frameDirty = true) :
    (frameMargins env w).1 = w.customMargins ∧
    (w.customMargins = ⟨0, 0, 0, 0⟩ → (frameMargins env w).1 = ⟨0, 0, 0, 0⟩) ∧
    (∀ w2 : QWindowsWindow, w2.flags = w.flags → w2.style = w.style →
      w2.exStyle = w.exStyle → w2.customMargins = w.customMargins →
      w2.frameDirty = true → (frameMargins env w2).1 = (frameMargins env w).1) := by
  have h1 : (frameMargins env w).1 = w.customMargins := by
    simp [frameMargins, hd, hf, QMargins.zero_add]
  refine ⟨h1, fun hz => by rw [h1, hz], ?_⟩
  intro w2 e1 e2 e3 e4 e5
  rw [h1]
  simp [frameMargins, e5, e1, hf, QMargins.zero_add, e4]

/-- Witness for C6 at the frameless window with custom margins. -/
theorem frameMargins_frameless_witness :
    (frameMargins baseEnv framelessCustomWindow).1 = framelessCustomWindow.customMargins :=
  (frameMargins_frameless baseEnv framelessCustomWindow (by decide) (by decide)).1

/-! C9: operations on a window without a native handle. -/

/-- C9 counterexample: setWindowState on a window without a native handle
performs no native call but also emits no warning, contradicting the claim
that every listed no-handle operation logs a warning. -/
theorem noHandle_setWindowState_silent :
    noHandleWindow.hwnd = false ∧
    warningCount (setWindowState baseEnv .maximized noHandleWindow).2 = 0 := by
  decide

/-- C9 amended: on a window without a native handle no operation performs a
native call or raises; only the two grab operations log a warning and
return false; setWindowState, setVisible and setWindowIcon are complete
no-ops (setWindowState does not even record the requested state), while
setGeometry and setOpacity record the request (base-class geometry,
opacity) without touching the native-side state. -/
theorem noHandle_ops (env : OsEnv) (w : QWindowsWindow) (h : w.hwnd = false)
    (st : WindowState) (vis grab kg : Bool) (r : QRect) (lvl : Rat) :
    setWindowState env st w = (w, []) ∧
    setVisible env vis w = (w, []) ∧
    setWindowIcon w = (w, []) ∧
    setMouseGrabEnabled grab w = ((w, [.warningMsg]), false) ∧
    setKeyboardGrabEnabled grab kg w = ((w, [.warningMsg]), (false, kg)) ∧
    (setGeometry env r w).2 = [] ∧
    (setGeometry env r w).1.style = w.style ∧
    (setGeometry env r w).1.frameGeometry = w.frameGeometry ∧
    (setGeometry env r w).1.savedStyle = w.savedStyle ∧
    (setGeometry env r w).1.savedFrameGeometry = w.savedFrameGeometry ∧
    (setGeometry env r w).1.windowState = w.windowState ∧
    (setOpacity lvl w).2 = [] ∧
    (setOpacity lvl w).1.style = w.style ∧
    (setOpacity lvl w).1.frameGeometry = w.frameGeometry := by
  by_cases hpf : env.positionIncludesFrame = true <;>
    by_cases hfd : w.frameDirty = true <;>
      by_cases hmn : w.windowState = WindowState.minimized <;>
        simp [setWindowState, setVisible, setWindowIcon, setMouseGrabEnabled,
          setKeyboardGrabEnabled, setGeometry, setOpacity, frameMargins,
          h, hpf, hfd, hmn] <;>
        split_ifs <;> simp_all

/-- Witness for C9 at the concrete handleless window. -/
theorem noHandle_ops_witness :
    setWindowState baseEnv .maximized noHandleWindow = (noHandleWindow, []) ∧
    setMouseGrabEnabled true noHandleWindow = ((noHandleWindow, [.warningMsg]), false) :=
  ⟨(noHandle_ops baseEnv noHandleWindow rfl .maximized true true true
      ⟨1, 2, 3, 4⟩ (1 / 2)).1,
   (noHandle_ops baseEnv noHandleWindow rfl .maximized true true true
      ⟨1, 2, 3, 4⟩ (1 / 2)).2.2.2.1⟩

/-! C5: synthetic exposes on shrinking geometry. -/

/-- C5 counterexample: an exposed ANGLE (OpenGL ES2) window that shrinks in
both dimensions receives no synthetic expose at all, contradicting the
claim that every exposed window receives exactly one. -/
theorem shrinkExpose_counterexample :
    es2Window.exposed = true ∧
    (geometry_sys baseEnv es2Window).1.size ≠ es2Window.geometry.size ∧
    ¬ ((geometry_sys baseEnv es2Window).1.width > es2Window.geometry.width ∨
       (geometry_sys baseEnv es2Window).1.height > es2Window.geometry.height) ∧
    exposeRegions (handleGeometryChange baseEnv es2Window).2 = [] := by
  decide

/-- C5 amended: for an exposed window that is not an OpenGL ES2 (ANGLE)
surface and not within setStyle, a geometry readback whose size changed
without growing in either dimension fires exactly one synthetic expose,
for the rectangle at the origin with the new size; a readback that grew in
at least one dimension, or whose size is unchanged (a pure move), fires
none. -/
theorem handleGeometryChange_shrinkExpose (env : OsEnv) (w : QWindowsWindow)
    (hws : w.withinSetStyle = false) (hgl : w.openglES2 = false)
    (hexp : w.exposed = true) :
    ((geometry_sys env w).1.size ≠ w.geometry.size ∧
       ¬ ((geometry_sys env w).1.width > w.geometry.width ∨
          (geometry_sys env w).1.height > w.geometry.height) →
      exposeRegions (handleGeometryChange env w).2
        = [some ⟨0, 0, (geometry_sys env w).1.width, (geometry_sys env w).1.height⟩]) ∧
    (((geometry_sys env w).1.width > w.geometry.width ∨
      (geometry_sys env w).1.height > w.geometry.height) ∨
      (geometry_sys env w).1.size = w.geometry.size →
      exposeRegions (handleGeometryChange env w).2 = []) := by
  have hgl2 : (geometry_sys env w).2.openglES2 = w.openglES2 := by
    simp only [geometry_sys, frameMargins]
    split_ifs <;> rfl
  have hexp2 : (geometry_sys env w).2.exposed = w.exposed := by
    simp only [geometry_sys, frameMargins]
    split_ifs <;> rfl
  constructor
  · rintro ⟨h1, h2⟩
    rw [not_or] at h2
    obtain ⟨h2a, h2b⟩ := h2
    simp [handleGeometryChange, hws, hgl2, hexp2, hgl, hexp, fireExpose,
      exposeRegions, h1, h2a, h2b] <;>
      (intros; subst_vars; rfl)
  · intro hcase
    rcases hcase with hgrow | hsame
    · rcases hgrow with ha | hb
      · simp [handleGeometryChange, hws, hgl2, hexp2, hgl, hexp,
          exposeRegions, ha] <;>
          (intros; subst_vars; rfl)
      · simp [handleGeometryChange, hws, hgl2, hexp2, hgl, hexp,
          exposeRegions, hb] <;>
          (intros; subst_vars; rfl)
    · simp [handleGeometryChange, hws, hgl2, hexp2, hgl, hexp,
        exposeRegions, hsame] <;>
        (intros; subst_vars; rfl)

/-- Witness for C5: a raster window that shrank from 200 by 200 to 100 by
100 gets exactly one synthetic expose for the new client rectangle. -/
theorem handleGeometryChange_shrinkExpose_witness :
    exposeRegions (handleGeometryChange baseEnv shrunkWindow).2
      = [some ⟨0, 0, 100, 100⟩] :=
  (handleGeometryChange_shrinkExpose baseEnv shrunkWindow rfl rfl rfl).1
    (by decide)

/-! C4: the temporary maximize-box style fixup in show_sys. -/

/-- The transient-parent update never changes the window record. -/
theorem updateTransientParent_fst (env : OsEnv) (w : QWindowsWindow) :
    (updateTransientParent env w).1 = w := by
  simp only [updateTransientParent]
  split_ifs <;> rfl

/-- C4 counterexample: showing a hitherto-hidden window maximized, a case
the claim covers, leaves the WS_VISIBLE bit (bit 28, not WS_MAXIMIZEBOX)
newly set after the sequence: the style cleanup re-reads the style after
ShowWindow has shown the window, so a style bit other than WS_MAXIMIZEBOX
loses its original value. -/
theorem show_sys_maximizeBoxFixup_counterexample :
    hiddenMaximizedShowWindow.topLevel = true ∧
    hiddenMaximizedShowWindow.windowState = WindowState.maximized ∧
    hiddenMaximizedShowWindow.flags &&& WindowTitleHint ≠ 0 ∧
    hiddenMaximizedShowWindow.flags &&& (WindowMinMaxButtonsHint ||| FramelessWindowHint) = 0 ∧
    (show_sys baseEnv hiddenMaximizedShowWindow).1.style.testBit 28 = true ∧
    hiddenMaximizedShowWindow.style.testBit 28 = false := by
  decide

/-- Clearing WS_MAXIMIZEBOX from the style word ShowWindow(SW_SHOWMAXIMIZED)
produced restores every bit of a 32-bit word except WS_MAXIMIZEBOX itself
(ends cleared) and the bits the show command sets or clears: WS_MAXIMIZE
and WS_VISIBLE end set, WS_MINIMIZE ends cleared. -/
theorem show_maximized_fixup_bits {x : Nat} (hlt : x < 2 ^ 32) :
    (∀ i, i ≠ 16 → i ≠ 24 → i ≠ 28 → i ≠ 29 →
      (((x ||| WS_MAXIMIZEBOX ||| WS_VISIBLE ||| WS_MAXIMIZE) &&& wnot WS_MINIMIZE)
        &&& wnot WS_MAXIMIZEBOX).testBit i = x.testBit i) ∧
    ((((x ||| WS_MAXIMIZEBOX ||| WS_VISIBLE ||| WS_MAXIMIZE) &&& wnot WS_MINIMIZE)
        &&& wnot WS_MAXIMIZEBOX).testBit 16 = false) ∧
    ((((x ||| WS_MAXIMIZEBOX ||| WS_VISIBLE ||| WS_MAXIMIZE) &&& wnot WS_MINIMIZE)
        &&& wnot WS_MAXIMIZEBOX).testBit 24 = true) ∧
    ((((x ||| WS_MAXIMIZEBOX ||| WS_VISIBLE ||| WS_MAXIMIZE) &&& wnot WS_MINIMIZE)
        &&& wnot WS_MAXIMIZEBOX).testBit 28 = true) ∧
    ((((x ||| WS_MAXIMIZEBOX ||| WS_VISIBLE ||| WS_MAXIMIZE) &&& wnot WS_MINIMIZE)
        &&& wnot WS_MAXIMIZEBOX).testBit 29 = false) := by
  have hm1 : wnot WS_MINIMIZE = 0xDFFFFFFF := by decide
  have hm2 : wnot WS_MAXIMIZEBOX = 0xFFFEFFFF := by decide
  have hMB : WS_MAXIMIZEBOX = 2 ^ 16 := by decide
  have hVIS : WS_VISIBLE = 2 ^ 28 := by decide
  have hMAX : WS_MAXIMIZE = 2 ^ 24 := by decide
  have hall1 : ∀ j, j < 32 → j ≠ 29 → Nat.testBit 0xDFFFFFFF j = true := by decide
  have hall2 : ∀ j, j < 32 → j ≠ 16 → Nat.testBit 0xFFFEFFFF j = true := by decide
  have e16 : (65536 : Nat) = 2 ^ 16 := by norm_num
  have e24 : (16777216 : Nat) = 2 ^ 24 := by norm_num
  have e28 : (268435456 : Nat) = 2 ^ 28 := by norm_num
  refine ⟨?_, ?_, ?_, ?_, ?_⟩
  · intro i h16 h24 h28 h29
    rw [hm1, hm2, hMB, hVIS, hMAX]
    simp only [Nat.testBit_land, Nat.testBit_lor]
    have b16 : Nat.testBit 65536 i = false := by
      rw [e16]
      exact Nat.testBit_two_pow_of_ne (fun he => h16 he.symm)
    have b28 : Nat.testBit 268435456 i = false := by
      rw [e28]
      exact Nat.testBit_two_pow_of_ne (fun he => h28 he.symm)
    have b24 : Nat.testBit 16777216 i = false := by
      rw [e24]
      exact Nat.testBit_two_pow_of_ne (fun he => h24 he.symm)
    by_cases h32 : i < 32
    · simp [b16, b24, b28, hall1 i h32 h29, hall2 i h32 h16]
    · push_neg at h32
      have hx : x.testBit i = false :=
        Nat.testBit_eq_false_of_lt
          (lt_of_lt_of_le hlt (Nat.pow_le_pow_right (by norm_num) h32))
      have hc1 : Nat.testBit 0xDFFFFFFF i = false :=
        Nat.testBit_eq_false_of_lt
          (lt_of_lt_of_le (by norm_num) (Nat.pow_le_pow_right (by norm_num) h32))
      have hc2 : Nat.testBit 0xFFFEFFFF i = false :=
        Nat.testBit_eq_false_of_lt
          (lt_of_lt_of_le (by norm_num) (Nat.pow_le_pow_right (by norm_num) h32))
      simp [b16, b24, b28, hx, hc1, hc2]
  · rw [hm1, hm2]
    simp [Nat.testBit_land, show Nat.testBit 0xFFFEFFFF 16 = false by decide]
  · rw [hm1, hm2, hMB, hVIS, hMAX]
    simp [Nat.testBit_land, Nat.testBit_lor,
      show Nat.testBit 16777216 24 = true by decide,
      show Nat.testBit 0xDFFFFFFF 24 = true by decide,
      show Nat.testBit 0xFFFEFFFF 24 = true by decide]
  · rw [hm1, hm2, hMB, hVIS, hMAX]
    simp [Nat.testBit_land, Nat.testBit_lor,
      show Nat.testBit 268435456 28 = true by decide,
      show Nat.testBit 0xDFFFFFFF 28 = true by decide,
      show Nat.testBit 0xFFFEFFFF 28 = true by decide]
  · rw [hm1, hm2]
    simp [Nat.testBit_land, show Nat.testBit 0xDFFFFFFF 29 = false by decide]

/-- C4 amended: showing a maximized top-level window whose flags carry the
title hint but neither the min/max-buttons nor the frameless hint, and
whose type does not override the show command (not Popup, ToolTip or Tool,
no show-without-activating property, which would replace the maximize show
command by SW_SHOWNOACTIVATE), adds exactly WS_MAXIMIZEBOX right before the
native maximize show command, removes exactly that bit afterwards and
follows with a frame-changed SetWindowPos; after the sequence every style
bit other than WS_MAXIMIZEBOX has its original value except the bits the
maximize show command itself changes: WS_VISIBLE and WS_MAXIMIZE end set
and WS_MINIMIZE ends cleared, while WS_MAXIMIZEBOX ends cleared. -/
theorem show_sys_maximizeBoxFixup (env : OsEnv) (w : QWindowsWindow)
    (htop : w.topLevel = true) (hstate : w.windowState = WindowState.maximized)
    (htitle : w.flags &&& WindowTitleHint ≠ 0)
    (hmm : w.flags &&& (WindowMinMaxButtonsHint ||| FramelessWindowHint) = 0)
    (ht1 : windowType w ≠ Qt_Popup) (ht2 : windowType w ≠ Qt_ToolTip)
    (ht3 : windowType w ≠ Qt_Tool) (hswa : w.showWithoutActivating = false)
    (hlt : w.style < 2 ^ 32) :
    (show_sys env w).2
      = (updateTransientParent env w).2
        ++ [.setWindowLongStyle (w.style ||| WS_MAXIMIZEBOX),
            .showWindowCall SW_SHOWMAXIMIZED,
            .setWindowLongStyle (((w.style ||| WS_MAXIMIZEBOX ||| WS_VISIBLE ||| WS_MAXIMIZE)
              &&& wnot WS_MINIMIZE) &&& wnot WS_MAXIMIZEBOX),
            .setWindowPosCall 0 0 0 0 0 (SWP_NOACTIVATE ||| SWP_NOMOVE ||| SWP_NOSIZE
              ||| SWP_NOZORDER ||| SWP_NOOWNERZORDER ||| SWP_FRAMECHANGED)] ∧
    (show_sys env w).1.style
      = ((w.style ||| WS_MAXIMIZEBOX ||| WS_VISIBLE ||| WS_MAXIMIZE)
          &&& wnot WS_MINIMIZE) &&& wnot WS_MAXIMIZEBOX ∧
    (∀ i, i ≠ 16 → i ≠ 24 → i ≠ 28 → i ≠ 29 →
      (show_sys env w).1.style.testBit i = w.style.testBit i) ∧
    (show_sys env w).1.style.testBit 16 = false ∧
    (show_sys env w).1.style.testBit 24 = true ∧
    (show_sys env w).1.style.testBit 28 = true ∧
    (show_sys env w).1.style.testBit 29 = false := by
  have hred : show_sys env w
      = ((applySetWindowPos 0 0 0 0 0 (SWP_NOACTIVATE ||| SWP_NOMOVE ||| SWP_NOSIZE
            ||| SWP_NOZORDER ||| SWP_NOOWNERZORDER ||| SWP_FRAMECHANGED)
          (setStyle (((w.style ||| WS_MAXIMIZEBOX ||| WS_VISIBLE ||| WS_MAXIMIZE)
              &&& wnot WS_MINIMIZE) &&& wnot WS_MAXIMIZEBOX)
            (applyShowWindow env SW_SHOWMAXIMIZED
              (setStyle (w.style ||| WS_MAXIMIZEBOX) w).1).1).1).1,
         (updateTransientParent env w).2
           ++ [.setWindowLongStyle (w.style ||| WS_MAXIMIZEBOX),
               .showWindowCall SW_SHOWMAXIMIZED,
               .setWindowLongStyle (((w.style ||| WS_MAXIMIZEBOX ||| WS_VISIBLE ||| WS_MAXIMIZE)
                 &&& wnot WS_MINIMIZE) &&& wnot WS_MAXIMIZEBOX),
               .setWindowPosCall 0 0 0 0 0 (SWP_NOACTIVATE ||| SWP_NOMOVE ||| SWP_NOSIZE
                 ||| SWP_NOZORDER ||| SWP_NOOWNERZORDER ||| SWP_FRAMECHANGED)]) := by
    simp [show_sys, htop, hstate, htitle, hmm, ht1, ht2, ht3, hswa,
      updateTransientParent_fst, setStyle, applyShowWindow, applySetWindowPos,
      SW_HIDE, SW_SHOWMAXIMIZED, SW_SHOWNORMAL, SW_SHOWNOACTIVATE, SW_RESTORE,
      SW_SHOWMINIMIZED, SW_MINIMIZE, SW_SHOWMINNOACTIVE, SW_SHOWNA,
      SWP_NOACTIVATE, SWP_NOMOVE, SWP_NOSIZE, SWP_NOZORDER, SWP_NOOWNERZORDER,
      SWP_FRAMECHANGED, SWP_HIDEWINDOW, SWP_SHOWWINDOW]
  have hstyle : (show_sys env w).1.style
      = ((w.style ||| WS_MAXIMIZEBOX ||| WS_VISIBLE ||| WS_MAXIMIZE)
          &&& wnot WS_MINIMIZE) &&& wnot WS_MAXIMIZEBOX := by
    rw [hred]
    simp only [applySetWindowPos, setStyle, SWP_HIDEWINDOW, SWP_SHOWWINDOW,
      SWP_NOACTIVATE, SWP_NOMOVE, SWP_NOSIZE, SWP_NOZORDER, SWP_NOOWNERZORDER,
      SWP_FRAMECHANGED]
    rfl
  refine ⟨by rw [hred], hstyle, ?_, ?_, ?_, ?_, ?_⟩
  · intro i h16 h24 h28 h29
    rw [hstyle]
    exact (show_maximized_fixup_bits hlt).1 i h16 h24 h28 h29
  · rw [hstyle]
    exact (show_maximized_fixup_bits hlt).2.1
  · rw [hstyle]
    exact (show_maximized_fixup_bits hlt).2.2.1
  · rw [hstyle]
    exact (show_maximized_fixup_bits hlt).2.2.2.1
  · rw [hstyle]
    exact (show_maximized_fixup_bits hlt).2.2.2.2

/-- Witness for C4 at a concrete visible maximized window: the WS_CAPTION
low bit (22) is preserved and WS_MAXIMIZEBOX (16) ends cleared. -/
theorem show_sys_maximizeBoxFixup_witness :
    (show_sys baseEnv maximizedShowWindow).1.style.testBit 22
      = maximizedShowWindow.style.testBit 22 ∧
    (show_sys baseEnv maximizedShowWindow).1.style.testBit 16 = false :=
  ⟨(show_sys_maximizeBoxFixup baseEnv maximizedShowWindow rfl rfl (by decide)
      (by decide) (by decide) (by decide) (by decide) rfl (by decide)).2.2.1
      22 (by decide) (by decide) (by decide) (by decide),
   (show_sys_maximizeBoxFixup baseEnv maximizedShowWindow rfl rfl (by decide)
      (by decide) (by decide) (by decide) (by decide) rfl (by decide)).2.2.2.1⟩

/-! C1: the full-screen round trip. -/

/-- C1 counterexample: for S = FullScreen, which the claim allows (it
excludes only Minimized), the second setWindowState call is a no-op since
the state did not change: the original style is not restored and the saved
record is not cleared. -/
theorem fullScreen_roundTrip_counterexample :
    baseWindow.savedStyle = 0 ∧
    (setWindowState baseEnv .fullScreen
        (setWindowState baseEnv .fullScreen baseWindow).1).1.savedStyle ≠ 0 ∧
    (setWindowState baseEnv .fullScreen
        (setWindowState baseEnv .fullScreen baseWindow).1).1.style ≠ baseWindow.style := by
  decide

/-- C1 amended: for a window with a native handle in the Normal state, with
no pending saved record, a nonzero style word, a valid frame geometry and
no OS-side maximized or iconic placement, entering FullScreen and then
requesting NoState restores the style word and the frame geometry exactly
and clears the saved record (savedStyle zero, savedFrameGeometry the
invalid null rectangle). Restoring towards Maximized re-maximizes the
frame, towards Minimized keeps the record, and towards FullScreen is a
no-op, so those targets are excluded. -/
theorem fullScreen_roundTrip (env : OsEnv) (w : QWindowsWindow)
    (hh : w.hwnd = true) (hst : w.windowState = WindowState.noState)
    (hsv : w.savedStyle = 0) (hs0 : w.style ≠ 0)
    (hmax : w.osMaximized = false) (hmin : w.osMinimized = false)
    (hfg : w.frameGeometry.isValid = true) :
    (setWindowState env .noState (setWindowState env .fullScreen w).1).1.style = w.style ∧
    (setWindowState env .noState (setWindowState env .fullScreen w).1).1.frameGeometry
      = w.frameGeometry ∧
    (setWindowState env .noState (setWindowState env .fullScreen w).1).1.savedStyle = 0 ∧
    (setWindowState env .noState (setWindowState env .fullScreen w).1).1.savedFrameGeometry
      = nullRect := by
  have c1 : Nat.testBit (WS_CLIPCHILDREN ||| WS_CLIPSIBLINGS ||| WS_POPUP) 28 = false := by
    decide
  have c2 : Nat.testBit WS_SYSMENU 28 = false := by decide
  have c3 : Nat.testBit WS_BORDER 28 = false := by decide
  have c4 : Nat.testBit WS_VISIBLE 28 = true := by decide
  by_cases hv : w.style.testBit 28 = true <;>
    by_cases hsm : w.style &&& WS_SYSMENU = 0 <;>
      by_cases hbfs : w.hasBorderInFullScreen = true <;>
        cases hsg : env.screenGeometry <;>
          simp +decide [setWindowState, setWindowState_sys, enterFullScreen, leaveFullScreen,
            saveFullScreenRecord, setStyle, applySetWindowPos, applyShowWindow,
            isVisible, isWindowVisible, windowVisibility_sys, frameGeometry_sys,
            frameGeometryOf, normalFrameGeometry, hh, hst, hsv, hs0, hmax, hmin, hfg,
            hv, hsm, hbfs, hsg, lor_WS_VISIBLE_eq_self, Nat.testBit_lor,
            c1, c2, c3, c4, nullRect,
            SW_SHOWNA, SW_MAXIMIZE, SW_SHOWMAXIMIZED, SW_HIDE, SW_SHOWNORMAL,
            SW_SHOWNOACTIVATE, SW_RESTORE, SW_SHOWMINIMIZED, SW_MINIMIZE,
            SW_SHOWMINNOACTIVE, SWP_FRAMECHANGED, SWP_NOACTIVATE, SWP_NOZORDER,
            SWP_NOSIZE, SWP_NOMOVE, SWP_HIDEWINDOW, SWP_SHOWWINDOW, HWND_TOP]

/-- Witness for C1: the base window goes to full screen and back to Normal
with style, geometry and record restored. -/
theorem fullScreen_roundTrip_witness :
    (setWindowState baseEnv .noState
        (setWindowState baseEnv .fullScreen baseWindow).1).1.style = baseWindow.style ∧
    (setWindowState baseEnv .noState
        (setWindowState baseEnv .fullScreen baseWindow).1).1.frameGeometry
      = baseWindow.frameGeometry ∧
    (setWindowState baseEnv .noState
        (setWindowState baseEnv .fullScreen baseWindow).1).1.savedStyle = 0 ∧
    (setWindowState baseEnv .noState
        (setWindowState baseEnv .fullScreen baseWindow).1).1.savedFrameGeometry
      = nullRect :=
  fullScreen_roundTrip baseEnv baseWindow rfl rfl rfl (by decide) rfl rfl (by decide)

/-! C7: default decorations of a plain dialog. -/

/-- Evaluation of the creation planner on a bare Dialog type: the fixed-up
flags gain title, system-menu, context-help and close hints, and the
computed styles carry WS_CAPTION, WS_SYSMENU and WS_EX_CONTEXTHELP. -/
theorem fromWindow_dialog_eq (tp ph : Nat) (mx : Bool) :
    fromWindow ⟨true, none, tp, ph, mx⟩ Qt_Dialog 0
      = ⟨0x08013003, tp, Qt_Dialog, 0x86CC0000, WS_EX_CONTEXTHELP,
         true, false, true, false, false⟩ := by
  have hfix : fixTopLevelWindowFlags Qt_Dialog = 134295555 := by decide
  cases mx <;>
    simp +decide [fromWindow, hfix, shouldShowMaximizeButton,
      Qt_Widget, Qt_Window, Qt_Dialog, Qt_Sheet, Qt_Drawer, Qt_Popup, Qt_Tool,
      Qt_ToolTip, Qt_SplashScreen, WindowType_Mask, MSWindowsFixedSizeDialogHint,
      FramelessWindowHint, WindowTitleHint, WindowSystemMenuHint,
      WindowMinimizeButtonHint, WindowMaximizeButtonHint, WindowMinMaxButtonsHint,
      WindowContextHelpButtonHint, WindowStaysOnTopHint, WindowTransparentForInput,
      CustomizeWindowHint, WindowCloseButtonHint, WindowFullscreenButtonHint,
      WS_POPUP, WS_CHILD, WS_OVERLAPPED, WS_CLIPSIBLINGS, WS_CLIPCHILDREN,
      WS_DLGFRAME, WS_THICKFRAME, WS_CAPTION, WS_SYSMENU, WS_BORDER,
      WS_MINIMIZEBOX, WS_MAXIMIZEBOX, WS_EX_DLGMODALFRAME, WS_EX_TOOLWINDOW,
      WS_EX_CONTEXTHELP, WS_EX_LAYERED, WS_EX_TRANSPARENT, ForceChild, ForceTopLevel]

/-- C7: a top-level, non-embedded window created with type Dialog and no
decoration hints beyond the type gets flags including the title,
system-menu, context-help-button and close-button hints; the computed
native style includes WS_CAPTION and WS_SYSMENU, the extended style
includes WS_EX_CONTEXTHELP, and the post-creation setup enables the
system-menu close item. -/
theorem dialog_default_decorations (info : QWindowInfo)
    (htl : info.isTopLevel = true)
    (hemb : info.embeddedNativeParentHandleProp = none) :
    (fromWindow info Qt_Dialog 0).flags &&& WindowTitleHint ≠ 0 ∧
    (fromWindow info Qt_Dialog 0).flags &&& WindowSystemMenuHint ≠ 0 ∧
    (fromWindow info Qt_Dialog 0).flags &&& WindowContextHelpButtonHint ≠ 0 ∧
    (fromWindow info Qt_Dialog 0).flags &&& WindowCloseButtonHint ≠ 0 ∧
    (fromWindow info Qt_Dialog 0).style &&& WS_CAPTION = WS_CAPTION ∧
    (fromWindow info Qt_Dialog 0).style &&& WS_SYSMENU ≠ 0 ∧
    (fromWindow info Qt_Dialog 0).exStyle &&& WS_EX_CONTEXTHELP ≠ 0 ∧
    initializeCloseMenuItem (fromWindow info Qt_Dialog 0) = some true := by
  obtain ⟨tl, emb, tp, ph, mx⟩ := info
  simp only at htl hemb
  subst htl hemb
  rw [fromWindow_dialog_eq]
  refine ⟨?_, ?_, ?_, ?_, ?_, ?_, ?_, ?_⟩ <;>
    simp +decide [initializeCloseMenuItem, WindowTitleHint, WindowSystemMenuHint,
      WindowContextHelpButtonHint, WindowCloseButtonHint, WS_CAPTION, WS_SYSMENU,
      WS_EX_CONTEXTHELP, CustomizeWindowHint]

/-- Witness for C7 at a concrete dialog window info. -/
theorem dialog_default_decorations_witness :
    (fromWindow dialogInfo Qt_Dialog 0).style &&& WS_CAPTION = WS_CAPTION ∧
    initializeCloseMenuItem (fromWindow dialogInfo Qt_Dialog 0) = some true :=
  ⟨(dialog_default_decorations dialogInfo rfl rfl).2.2.2.2.1,
   (dialog_default_decorations dialogInfo rfl rfl).2.2.2.2.2.2.2⟩

end QtWin
